import Mathlib

/-!
Verification development for the `particle-som-gnss` GNSS acquisition library.

The definitions below are a shallow embedding of the C++ sources
(`src/location.h`, `src/location_options.h`, `src/location_point.h`):

* raw modem reply text is `List Char`;
* C `unsigned int` values are `ℕ` (with explicit `% 2^32` where the source
  relies on unsigned wraparound), C `int` values that receive unsigned
  expressions go through `toInt32`;
* C `float`/`double` values are modelled as exact fractions `Fl` (an
  integer numerator over a positive natural denominator; every division in
  the source is by a positive constant, so the denominator stays positive
  by construction).  All inputs exercised here are exactly representable
  floats, so no rounding is modelled.  `Fl.equiv`/`Fl.le` give value
  equality/order; structural equality is used where the source copies a
  value verbatim;
* `sscanf` is modelled following the C standard semantics for the three
  format strings appearing in the source: a whitespace directive skips any
  run of whitespace, a literal directive must match exactly, numeric
  conversions skip leading whitespace and honour maximum field widths, and
  the return value is the number of completed assignments, or `-1` (EOF)
  when end of input is reached before the first conversion completes and
  before any matching failure.  (C also accepts `inf`/`nan`/hex floats,
  which no modem reply contains; those are not modelled.)
-/

/-- Exact model of a C `float`/`double` value: an integer numerator over a
positive natural denominator (not necessarily reduced). -/
structure Fl where
  num : ℤ
  den : ℕ
deriving DecidableEq, Repr

/-- Embed a natural number. -/
def Fl.ofNat (n : ℕ) : Fl := ⟨n, 1⟩

/-- Multiplication. -/
def Fl.mul (a b : Fl) : Fl := ⟨a.num * b.num, a.den * b.den⟩

/-- Addition. -/
def Fl.add (a b : Fl) : Fl := ⟨a.num * b.den + b.num * a.den, a.den * b.den⟩

/-- Subtraction. -/
def Fl.sub (a b : Fl) : Fl := ⟨a.num * b.den - b.num * a.den, a.den * b.den⟩

/-- Division by a positive constant (the only division the source does). -/
def Fl.divPos (a : Fl) (d : ℕ) : Fl := ⟨a.num, a.den * d⟩

/-- Value order (the meaning of C `<=` on floats, denominators positive). -/
def Fl.le (a b : Fl) : Prop := a.num * b.den ≤ b.num * a.den

/-- Value equality (two fractions denote the same float value). -/
def Fl.equiv (a b : Fl) : Prop := a.num * b.den = b.num * a.den

instance (a b : Fl) : Decidable (Fl.le a b) := by unfold Fl.le; infer_instance

instance (a b : Fl) : Decidable (Fl.equiv a b) := by unfold Fl.equiv; infer_instance

/-- Outcome of a single failed scanf directive: end of input vs. mismatch. -/
inductive ScanErr
  | eof
  | fail
deriving DecidableEq, Repr

/-- Skip a run of whitespace (a whitespace directive in a scanf format). -/
def skipWs (s : List Char) : List Char :=
  s.dropWhile (fun c => c.isWhitespace)

/-- Match a literal run of format characters (none of them whitespace). -/
def scanLit : List Char → List Char → Except ScanErr (List Char)
  | [], s => .ok s
  | _ :: _, [] => .error .eof
  | c :: cs, x :: xs => if x = c then scanLit cs xs else .error .fail

/-- Numeric value of a decimal digit character. -/
def digitVal (c : Char) : ℕ := c.toNat - '0'.toNat

/-- Take a maximal run of decimal digits, limited by an optional remaining
field width (`none` = unlimited). -/
def takeDigitsW (w : Option ℕ) : List Char → (List Char × List Char)
  | [] => ([], [])
  | c :: cs =>
    if w = some 0 then ([], c :: cs)
    else if c.isDigit then
      let p := takeDigitsW (w.map (fun n => n - 1)) cs
      (c :: p.1, p.2)
    else ([], c :: cs)

/-- Value of a digit string, most significant first. -/
def natOfDigits (ds : List Char) : ℕ :=
  ds.foldl (fun acc c => acc * 10 + digitVal c) 0

/-- Modulus of C `unsigned int` / `system_tick_t` (32-bit). -/
def UINT32_MOD : ℕ := 2 ^ 32

/-- Wrap a scanned magnitude into `unsigned int` range, negating modulo
`2^32` when the scan consumed a minus sign (C `%u` semantics). -/
def uintWrap (neg : Bool) (v : ℕ) : ℕ :=
  if neg then (UINT32_MOD - v % UINT32_MOD) % UINT32_MOD else v % UINT32_MOD

/-- C `scanf` `%u` conversion with optional maximum field width:
skip whitespace, optional sign, then at least one digit within the width. -/
def scanUInt (w : Option ℕ) (s0 : List Char) : Except ScanErr (ℕ × List Char) :=
  match skipWs s0 with
  | [] => .error .eof
  | c :: rest =>
    let signed := c = '-' || c = '+'
    let neg := c = '-'
    let w1 := if signed then w.map (fun n => n - 1) else w
    let s1 := if signed then rest else c :: rest
    match s1 with
    | [] => .error .eof
    | d :: _ =>
      if d.isDigit ∧ w1 ≠ some 0 then
        let p := takeDigitsW w1 s1
        .ok (uintWrap neg (natOfDigits p.1), p.2)
      else .error .fail

/-- C `scanf` `%f`/`%lf` conversion (decimal forms only): skip whitespace,
optional sign, digits with optional fractional part, optional exponent. -/
def scanFloat (s0 : List Char) : Except ScanErr (Fl × List Char) :=
  match skipWs s0 with
  | [] => .error .eof
  | c :: rest =>
    let signed := c = '-' || c = '+'
    let neg := c = '-'
    let s1 := if signed then rest else c :: rest
    let ip := takeDigitsW none s1
    let (fracDs, s3) :=
      match ip.2 with
      | '.' :: t => takeDigitsW none t
      | _ => ([], ip.2)
    if ip.1 = [] ∧ fracDs = [] then
      -- no mantissa digits: end of input gives an input failure, anything
      -- else a matching failure
      if s3 = [] then .error .eof else .error .fail
    else
      let m : ℤ := (natOfDigits ip.1 * 10 ^ fracDs.length + natOfDigits fracDs : ℕ)
      let mant : Fl := ⟨if neg then -m else m, 10 ^ fracDs.length⟩
      match s3 with
      | 'e' :: t | 'E' :: t =>
        let esigned := t.head? = some '-' || t.head? = some '+'
        let eneg := t.head? = some '-'
        let t1 := if esigned then t.tail else t
        let ep := takeDigitsW none t1
        if ep.1 = [] then .error .fail
        else
          let e := natOfDigits ep.1
          let v : Fl :=
            if eneg then ⟨mant.num, mant.den * 10 ^ e⟩ else ⟨mant.num * 10 ^ e, mant.den⟩
          .ok (v, ep.2)
      | _ => .ok (mant, s3)

/-- Decoded device-reported error (`CME_Error` in `location.h`). -/
inductive CME_Error
  | NONE
  | FIX
  | SESSION_IS_ONGOING
  | SESSION_NOT_ACTIVE
  | OPERATION_TIMEOUT
  | NO_FIX
  | GNSS_IS_WORKING
  | UNKNOWN_ERROR
  | UNDEFINED
deriving DecidableEq, Repr

/-- scanf return value for a directive failure: `-1` (EOF) when end of input
was reached before the first completed conversion, else the number of
conversions completed so far. -/
def finishCount (n : ℕ) (e : ScanErr) : ℤ :=
  if n = 0 ∧ e = .eof then -1 else (n : ℤ)

/-- `sscanf(buf, " +CME ERROR: %u", &error_code)` from
`SomLocation::parseCmeError`.  Returns the scanf result together with the
value of `error_code`, which stays at its C initialisation `0` when the
conversion was never completed. -/
def sscanfCme (buf : List Char) : ℤ × ℕ :=
  match scanLit ("+CME".toList) (skipWs buf) with
  | .error e => (finishCount 0 e, 0)
  | .ok s1 =>
    match scanLit ("ERROR:".toList) (skipWs s1) with
    | .error e => (finishCount 0 e, 0)
    | .ok s2 =>
      match scanUInt none (skipWs s2) with
      | .error e => (finishCount 0 e, 0)
      | .ok (v, _) => (1, v)

/-- The `switch (error_code)` of `SomLocation::parseCmeError`: the six
known codes yield their named faults, anything else `UNDEFINED`. -/
def cmeSwitch (error_code : ℕ) : CME_Error :=
  match error_code with
  | 504 => CME_Error.SESSION_IS_ONGOING
  | 505 => CME_Error.SESSION_NOT_ACTIVE
  | 506 => CME_Error.OPERATION_TIMEOUT
  | 516 => CME_Error.NO_FIX
  | 522 => CME_Error.GNSS_IS_WORKING
  | 549 => CME_Error.UNKNOWN_ERROR
  | _ => CME_Error.UNDEFINED

/-- `SomLocation::parseCmeError` (`location_point.h`): a scanf result of
exactly `0` yields `NONE`, otherwise the scanned code goes through the
switch (the EOF result `-1` leaves `error_code = 0`, hence `UNDEFINED`). -/
def parseCmeError (buf : List Char) : CME_Error :=
  let r := sscanfCme buf
  if r.1 = 0 then CME_Error.NONE else cmeSwitch r.2

/-- `LocationPoint` (`location_point.h`): the caller-visible result record. -/
structure LocationPoint where
  fix : ℕ
  epochTime : ℤ
  systemTime : ℤ
  latitude : Fl
  longitude : Fl
  altitude : Fl
  speed : Fl
  heading : Fl
  horizontalAccuracy : Fl
  horizontalDop : Fl
  verticalAccuracy : Fl
  verticalDop : Fl
  timeToFirstFix : Fl
  satsInUse : ℕ
deriving DecidableEq, Repr

/-- A `LocationPoint` with every field zero (C zero initialisation,
`LocationPoint point = {}` in the sample application). -/
def LocationPoint.init : LocationPoint :=
  ⟨0, 0, 0, ⟨0, 1⟩, ⟨0, 1⟩, ⟨0, 1⟩, ⟨0, 1⟩, ⟨0, 1⟩, ⟨0, 1⟩, ⟨0, 1⟩, ⟨0, 1⟩, ⟨0, 1⟩, ⟨0, 1⟩, 0⟩

/-- `SomLocation::QlocContext` (`location.h`): persistent scratch holding the
fields assigned by the `+QGPSLOC` scan.  The embedded `std::tm` is not kept:
the six fields written into it are recomputed on every parse and consumed
immediately by `mktime`, which is modelled directly in `parseQloc`. -/
structure QlocContext where
  tm_hour : ℕ
  tm_min : ℕ
  tm_sec : ℕ
  tm_day : ℕ
  tm_month : ℕ
  tm_year : ℕ
  latitude : Fl
  longitude : Fl
  fix : ℕ
  hdop : Fl
  altitude : Fl
  cogDegrees : ℕ
  cogMinutes : ℕ
  speedKmph : Fl
  speedKnots : Fl
  nsat : ℕ
deriving DecidableEq, Repr

/-- The all-zero `QlocContext` (C zero initialisation). -/
def QlocContext.init : QlocContext :=
  ⟨0, 0, 0, 0, 0, 0, ⟨0, 1⟩, ⟨0, 1⟩, 0, ⟨0, 1⟩, ⟨0, 1⟩, 0, 0, ⟨0, 1⟩, ⟨0, 1⟩, 0⟩

/-- State threaded through one `sscanf` run over the `+QGPSLOC` format:
completed-conversion count, partially updated context, remaining input. -/
structure QS where
  n : ℕ
  ctx : QlocContext
  s : List Char

/-- A stopped `+QGPSLOC` scan: final scanf result and the (partially
assigned) context. -/
abbrev QScan := Except (ℤ × QlocContext) QS

/-- Whitespace directive. -/
def qWs (st : QS) : QScan := .ok { st with s := skipWs st.s }

/-- Literal directive. -/
def qLit (lit : List Char) (st : QS) : QScan :=
  match scanLit lit st.s with
  | .ok r => .ok { st with s := r }
  | .error e => .error (finishCount st.n e, st.ctx)

/-- `%u` conversion assigning into the context. -/
def qU (w : Option ℕ) (set : QlocContext → ℕ → QlocContext) (st : QS) : QScan :=
  match scanUInt w st.s with
  | .ok (v, r) => .ok { n := st.n + 1, ctx := set st.ctx v, s := r }
  | .error e => .error (finishCount st.n e, st.ctx)

/-- `%*u` conversion (assignment suppressed, not counted). -/
def qUstar (w : Option ℕ) (st : QS) : QScan :=
  match scanUInt w st.s with
  | .ok (_, r) => .ok { st with s := r }
  | .error e => .error (finishCount st.n e, st.ctx)

/-- `%f`/`%lf` conversion assigning into the context. -/
def qF (set : QlocContext → Fl → QlocContext) (st : QS) : QScan :=
  match scanFloat st.s with
  | .ok (v, r) => .ok { n := st.n + 1, ctx := set st.ctx v, s := r }
  | .error e => .error (finishCount st.n e, st.ctx)

/-- `sscanf(buf, " +QGPSLOC: %02u%02u%02u.%*03u,%lf,%lf,%f,%f,%u,%03u.%02u,%f,%f,%02u%02u%02u,%u", ...)`
from `SomLocation::parseQloc`, assigning (in order) hour, minute, second,
latitude, longitude, hdop, altitude, fix, cogDegrees, cogMinutes, speedKmph,
speedKnots, day, month, year, nsat — 16 conversions. -/
def sscanfQloc (buf : List Char) (ctx : QlocContext) : ℤ × QlocContext :=
  let r :=
    (qWs ⟨0, ctx, buf⟩).bind (qLit "+QGPSLOC:".toList) |>.bind qWs
    |>.bind (qU (some 2) (fun c v => { c with tm_hour := v }))
    |>.bind (qU (some 2) (fun c v => { c with tm_min := v }))
    |>.bind (qU (some 2) (fun c v => { c with tm_sec := v }))
    |>.bind (qLit ".".toList) |>.bind (qUstar (some 3)) |>.bind (qLit ",".toList)
    |>.bind (qF (fun c v => { c with latitude := v })) |>.bind (qLit ",".toList)
    |>.bind (qF (fun c v => { c with longitude := v })) |>.bind (qLit ",".toList)
    |>.bind (qF (fun c v => { c with hdop := v })) |>.bind (qLit ",".toList)
    |>.bind (qF (fun c v => { c with altitude := v })) |>.bind (qLit ",".toList)
    |>.bind (qU none (fun c v => { c with fix := v })) |>.bind (qLit ",".toList)
    |>.bind (qU (some 3) (fun c v => { c with cogDegrees := v }))
    |>.bind (qLit ".".toList)
    |>.bind (qU (some 2) (fun c v => { c with cogMinutes := v }))
    |>.bind (qLit ",".toList)
    |>.bind (qF (fun c v => { c with speedKmph := v })) |>.bind (qLit ",".toList)
    |>.bind (qF (fun c v => { c with speedKnots := v })) |>.bind (qLit ",".toList)
    |>.bind (qU (some 2) (fun c v => { c with tm_day := v }))
    |>.bind (qU (some 2) (fun c v => { c with tm_month := v }))
    |>.bind (qU (some 2) (fun c v => { c with tm_year := v }))
    |>.bind (qLit ",".toList)
    |>.bind (qU none (fun c v => { c with nsat := v }))
  match r with
  | .ok st => ((st.n : ℤ), st.ctx)
  | .error (k, c) => (k, c)

/-- Reinterpret a C `unsigned int` bit pattern as the `int` it converts to
on a two's-complement machine. -/
def toInt32 (x : ℕ) : ℤ :=
  if x % UINT32_MOD < 2 ^ 31 then ((x % UINT32_MOD : ℕ) : ℤ)
  else ((x % UINT32_MOD : ℕ) : ℤ) - (UINT32_MOD : ℤ)

/-- Days since 1970-01-01 of civil date `y-m-d` (proleptic Gregorian,
Howard Hinnant's `days_from_civil`); linear in `d`, so out-of-range days
normalise exactly as `mktime` does. -/
def daysFromCivil (y m d : ℤ) : ℤ :=
  let y1 := y - (if m ≤ 2 then 1 else 0)
  let era := Int.fdiv y1 400
  let yoe := y1 - era * 400
  let doy := Int.fdiv (153 * (m + (if 2 < m then -3 else 9)) + 2) 5 + d - 1
  let doe := yoe * 365 + Int.fdiv yoe 4 - Int.fdiv yoe 100 + doy
  era * 146097 + doe - 719468

/-- `std::mktime` on a UTC device clock: normalises the month field, then
performs the calendar conversion; hour/minute/second/day contribute
linearly, exactly as `mktime`'s normalisation does. -/
def mktimeUTC (tmYear tmMon tmMday tmHour tmMin tmSec : ℤ) : ℤ :=
  daysFromCivil (tmYear + 1900 + Int.fdiv tmMon 12) (Int.fmod tmMon 12 + 1) tmMday * 86400 +
    tmHour * 3600 + tmMin * 60 + tmSec

/-- Result of `SomLocation::parseQloc`: return code, updated context,
updated point. -/
structure QlocResult where
  ret : ℤ
  ctx : QlocContext
  point : LocationPoint
deriving DecidableEq, Repr

/-- `SomLocation::parseQloc` (`location_point.h`).  Runs the `+QGPSLOC`
scan; returns `-1` only when the scanf result is exactly `0`, otherwise
populates the point from the (possibly only partially updated) context and
returns `0`.  The `tm` assignments are modelled with their C unsigned
arithmetic: `tm_year + 2000 - 1900` and `tm_month - 1` wrap modulo `2^32`
and are then converted to `int`.  `point.speed` is `speedKmph * 1000.0`
exactly as in the source (no `/3600`). -/
def parseQloc (buf : List Char) (ctx : QlocContext) (point : LocationPoint) :
    QlocResult :=
  let r := sscanfQloc buf ctx
  if r.1 = 0 then ⟨-1, r.2, point⟩
  else
    let c := r.2
    let epoch := mktimeUTC
      (toInt32 ((c.tm_year + 2000 - 1900) % UINT32_MOD))
      (toInt32 ((c.tm_month + UINT32_MOD - 1) % UINT32_MOD))
      (toInt32 (c.tm_day % UINT32_MOD))
      (toInt32 (c.tm_hour % UINT32_MOD))
      (toInt32 (c.tm_min % UINT32_MOD))
      (toInt32 (c.tm_sec % UINT32_MOD))
    ⟨0, c,
      { point with
        epochTime := epoch
        fix := c.fix
        latitude := c.latitude
        longitude := c.longitude
        altitude := c.altitude
        speed := c.speedKmph.mul (Fl.ofNat 1000)
        heading := (Fl.ofNat c.cogDegrees).add ((Fl.ofNat c.cogMinutes).divPos 60)
        horizontalDop := c.hdop
        satsInUse := c.nsat }⟩

/-- `SomLocation::EpeContext` (`location.h`). -/
structure EpeContext where
  h_acc : Fl
  v_acc : Fl
  speed_acc : Fl
  head_acc : Fl
deriving DecidableEq, Repr

/-- The all-zero `EpeContext`. -/
def EpeContext.init : EpeContext := ⟨⟨0, 1⟩, ⟨0, 1⟩, ⟨0, 1⟩, ⟨0, 1⟩⟩

/-- State for the `estimation_error` scan. -/
structure ES where
  n : ℕ
  ctx : EpeContext
  s : List Char

/-- A stopped `estimation_error` scan. -/
abbrev EScan := Except (ℤ × EpeContext) ES

/-- Whitespace directive. -/
def eWs (st : ES) : EScan := .ok { st with s := skipWs st.s }

/-- Literal directive. -/
def eLit (lit : List Char) (st : ES) : EScan :=
  match scanLit lit st.s with
  | .ok r => .ok { st with s := r }
  | .error e => .error (finishCount st.n e, st.ctx)

/-- `%f` conversion assigning into the context. -/
def eF (set : EpeContext → Fl → EpeContext) (st : ES) : EScan :=
  match scanFloat st.s with
  | .ok (v, r) => .ok { n := st.n + 1, ctx := set st.ctx v, s := r }
  | .error e => .error (finishCount st.n e, st.ctx)

/-- `sscanf(buf, " +QGPSCFG: \x22estimation_error\x22,%f,%f,%f,%f", ...)`
from `SomLocation::parseEpeResponse`. -/
def sscanfEpe (buf : List Char) (ctx : EpeContext) : ℤ × EpeContext :=
  let quote : List Char := [Char.ofNat 34]
  let r :=
    (eWs ⟨0, ctx, buf⟩).bind (eLit "+QGPSCFG:".toList) |>.bind eWs
    |>.bind (eLit (quote ++ "estimation_error".toList ++ quote ++ ",".toList))
    |>.bind (eF (fun c v => { c with h_acc := v })) |>.bind (eLit ",".toList)
    |>.bind (eF (fun c v => { c with v_acc := v })) |>.bind (eLit ",".toList)
    |>.bind (eF (fun c v => { c with speed_acc := v })) |>.bind (eLit ",".toList)
    |>.bind (eF (fun c v => { c with head_acc := v }))
  match r with
  | .ok st => ((st.n : ℤ), st.ctx)
  | .error (k, c) => (k, c)

/-- `SomLocation::parseEpeResponse` (`location_point.h`): no-op unless the
CME scan reports `NONE`; then, whenever the scanf result is nonzero
(including the EOF result `-1`), copies horizontal and vertical accuracy
from the context into the point. -/
def parseEpeResponse (buf : List Char) (ctx : EpeContext) (point : LocationPoint) :
    EpeContext × LocationPoint :=
  if parseCmeError buf ≠ CME_Error.NONE then (ctx, point)
  else
    let r := sscanfEpe buf ctx
    if r.1 ≠ 0 then
      (r.2, { point with horizontalAccuracy := r.2.h_acc, verticalAccuracy := r.2.v_acc })
    else (r.2, point)

/-- Result of `SomLocation::parseQlocResponse`. -/
structure QlocRespResult where
  ret : CME_Error
  ctx : QlocContext
  point : LocationPoint
deriving DecidableEq, Repr

/-- `SomLocation::parseQlocResponse` (`location_point.h`): on `NO_FIX`
clears the point's fix field and returns `NO_FIX`; on any other non-`NONE`
fault returns `NONE`; otherwise runs `parseQloc` and returns `FIX`
(its return value is not inspected). -/
def parseQlocResponse (buf : List Char) (ctx : QlocContext) (point : LocationPoint) :
    QlocRespResult :=
  let result := parseCmeError buf
  if result = CME_Error.NO_FIX then ⟨CME_Error.NO_FIX, ctx, { point with fix := 0 }⟩
  else if result ≠ CME_Error.NONE then ⟨CME_Error.NONE, ctx, point⟩
  else
    let q := parseQloc buf ctx point
    ⟨CME_Error.FIX, q.ctx, q.point⟩

/-- `LocationResults` (`location.h`). -/
inductive LocationResults
  | Unavailable
  | Unsupported
  | Idle
  | Acquiring
  | Pending
  | Fixed
  | TimedOut
deriving DecidableEq, Repr

/-- `PIN_INVALID` from Device OS (`pin_t` invalid marker); only its
distinctness from real pin numbers matters here. -/
def PIN_INVALID : ℕ := 2 ^ 16 - 1

/-- `LOCATION_PERIOD_ACQUIRE_MS` (`location_point.h`). -/
def LOCATION_PERIOD_ACQUIRE_MS : ℕ := 1000

/-- `LOCATION_REQUIRED_SETTLING_COUNT` (`location_point.h`). -/
def LOCATION_REQUIRED_SETTLING_COUNT : ℕ := 2

/-- `LocationHdopDefault` (`location_options.h`). -/
def LocationHdopDefault : ℤ := 100

/-- `LocationHaccDefault` (`location_options.h`), 50.0 meters. -/
def LocationHaccDefault : Fl := ⟨50, 1⟩

/-- `LocationFixTimeDefault` (`location_options.h`), 90 seconds. -/
def LocationFixTimeDefault : ℕ := 90

/-- `LocationConfiguration` (`location_options.h`): constellation bitmap,
antenna-power pin, HDOP threshold (`int`), horizontal-accuracy threshold
(`float`), maximum fix time (seconds). -/
structure LocationConfiguration where
  constellations : ℕ
  antennaPin : ℕ
  hdop : ℤ
  hacc : Fl
  maxFixSeconds : ℕ
deriving DecidableEq, Repr

/-- The default constructor: GPS+GLONASS, no antenna pin, HDOP 100,
accuracy 50.0 m, max fix time 90 s. -/
def LocationConfiguration.default : LocationConfiguration :=
  ⟨1, PIN_INVALID, LocationHdopDefault, LocationHaccDefault, LocationFixTimeDefault⟩

/-- Setter `LocationConfiguration::constellations(LocationConstellation)`. -/
def LocationConfiguration.constellationsSet (c : LocationConfiguration) (v : ℕ) :
    LocationConfiguration := { c with constellations := v }

/-- Setter `LocationConfiguration::enableAntennaPower(pin_t)`. -/
def LocationConfiguration.enableAntennaPowerSet (c : LocationConfiguration) (pin : ℕ) :
    LocationConfiguration := { c with antennaPin := pin }

/-- Setter `LocationConfiguration::hdopThreshold(int)`: clamps to [0,100]. -/
def LocationConfiguration.hdopThresholdSet (c : LocationConfiguration) (hdop : ℤ) :
    LocationConfiguration :=
  let h := if 0 > hdop then 0 else if 100 < hdop then 100 else hdop
  { c with hdop := h }

/-- Setter `LocationConfiguration::haccThreshold(float)`: no clamping. -/
def LocationConfiguration.haccThresholdSet (c : LocationConfiguration) (hacc : Fl) :
    LocationConfiguration := { c with hacc := hacc }

/-- Setter `LocationConfiguration::maximumFixTime(unsigned int)`. -/
def LocationConfiguration.maximumFixTimeSet (c : LocationConfiguration) (s : ℕ) :
    LocationConfiguration := { c with maxFixSeconds := s }

/-- `LocationConfiguration::operator=` (`location_options.h`, lines
164-174): copies `_constellations`, `_antennaPin`, `_hdop` and
`_maxFixSeconds` from `rhs` — the source omits `_hacc`, so the
accuracy-threshold field keeps the assignee's old value. -/
def LocationConfiguration.assign (self rhs : LocationConfiguration) :
    LocationConfiguration :=
  { self with
    constellations := rhs.constellations
    antennaPin := rhs.antennaPin
    hdop := rhs.hdop
    maxFixSeconds := rhs.maxFixSeconds }

/-- `SomLocation::_ModemType` (`location.h`). -/
inductive ModemType
  | Unavailable
  | Unsupported
  | BG95_M5
  | EG91
deriving DecidableEq, Repr

/-- `DEV_QUECTEL_BG95_M5` from Device OS headers (external collaborator);
only its distinctness from the "not cached" value `0` matters here. -/
def DEV_QUECTEL_BG95_M5 : ℕ := 33

/-- `SomLocation::detectModemType` (`location_point.h`): reads the cellular
device id (`celldev`, an input from the external modem) when the modem type
is not yet known and the modem is on; id `0` means not cached yet, the
BG95-M5 id is supported, anything else is unsupported.  Returns
(detected, new modem type). -/
def detectModemType (modemOn : Bool) (celldev : ℕ) (mt : ModemType) :
    Bool × ModemType :=
  if mt = ModemType.Unavailable ∧ modemOn = true then
    if celldev = 0 then (false, mt)
    else if celldev = DEV_QUECTEL_BG95_M5 then (true, ModemType.BG95_M5)
    else (false, ModemType.Unsupported)
  else if ¬(mt = ModemType.Unavailable) ∧ ¬(mt = ModemType.Unsupported) then
    (true, mt)
  else (false, mt)

/-- `SomLocation::stripLfCr` (`location_point.h`): removes every `\n` and
`\r`, keeping all other characters in order. -/
def stripLfCr (s : List Char) : List Char :=
  s.filter (fun c => ¬(c = '\n') ∧ ¬(c = '\r'))

/-- `SomLocation::waitOnResponseEvent` (`location_point.h`): the response
handoff, abstracting `os_queue_take` as the delivered value (or `none` when
the bounded wait expires); on expiry the event is reset to `Idle`. -/
def waitOnResponseEvent (taken : Option LocationResults) : LocationResults :=
  match taken with
  | none => LocationResults.Idle
  | some e => e

/-- Observable outcome of one `getLocation` entry call: returned result,
whether a command was put on the single-slot command queue, the wait bound
passed to `waitOnResponseEvent` (blocking mode only), and the possibly
updated modem type. -/
structure LocationCall where
  result : LocationResults
  enqueued : Bool
  timeoutUsed : Option ℕ
  modemType : ModemType
deriving DecidableEq, Repr

/-- `SomLocation::getLocation(point, publish)` (blocking entry,
`location_point.h`): modem-off and undetectable-modem preconditions come
first, then the `_acquiring` single-flight check; only after all of them a
command is enqueued and the caller blocks on the response handoff for
`maximumFixTime * 1000 + LOCATION_PERIOD_ACQUIRE_MS` milliseconds
(`system_tick_t`, i.e. modulo `2^32`).  Publishing does not change the
returned result and is left to the external collaborator. -/
def getLocationBlocking (conf : LocationConfiguration) (modemOn : Bool)
    (celldev : ℕ) (mt : ModemType) (acquiring : Bool)
    (delivered : Option LocationResults) : LocationCall :=
  if modemOn = false then ⟨LocationResults.Unavailable, false, none, mt⟩
  else
    let d := if mt = ModemType.Unavailable then detectModemType modemOn celldev mt
             else (true, mt)
    if d.1 = false then ⟨LocationResults.Unsupported, false, none, d.2⟩
    else if acquiring then ⟨LocationResults.Pending, false, none, d.2⟩
    else
      let timeout := (conf.maxFixSeconds * 1000 + LOCATION_PERIOD_ACQUIRE_MS) % UINT32_MOD
      ⟨waitOnResponseEvent delivered, true, some timeout, d.2⟩

/-- `SomLocation::getLocation(point, callback, publish)` (async entry,
`location_point.h`): same preconditions; on success enqueues the command
and returns `Acquiring` immediately. -/
def getLocationAsync (_conf : LocationConfiguration) (modemOn : Bool)
    (celldev : ℕ) (mt : ModemType) (acquiring : Bool) : LocationCall :=
  if modemOn = false then ⟨LocationResults.Unavailable, false, none, mt⟩
  else
    let d := if mt = ModemType.Unavailable then detectModemType modemOn celldev mt
             else (true, mt)
    if d.1 = false then ⟨LocationResults.Unsupported, false, none, d.2⟩
    else if acquiring then ⟨LocationResults.Pending, false, none, d.2⟩
    else ⟨LocationResults.Acquiring, true, none, d.2⟩

/-- `SomLocation::begin` (`location_point.h`): stores the configuration via
`LocationConfiguration::operator=` into the engine's `_conf` and caches the
antenna pin from the stored configuration.  (GPIO setup, modem detection
and constellation commands are external side effects.) -/
def SomLocation.beginConf (cur : LocationConfiguration)
    (configuration : LocationConfiguration) : LocationConfiguration × ℕ :=
  let conf1 := cur.assign configuration
  (conf1, conf1.antennaPin)

/-- Modulus of C `uint64_t` (`System.millis()` values). -/
def UINT64_MOD : ℕ := 2 ^ 64

/-- One poll cycle's worth of external inputs to the Worker loop:
modem power, the `System.millis()` reading at the loop head, the raw
`AT+QGPSLOC=2` reply, the raw `estimation_error` reply, the second
`System.millis()` reading taken when a first fix is recorded, and
`Time.now()`. -/
structure PollCycle where
  power : Bool
  now : ℕ
  locText : List Char
  epeText : List Char
  now2 : ℕ
  timeNow : ℤ
deriving DecidableEq, Repr

/-- Worker-loop state across poll cycles of one acquisition attempt:
`fixCount`, `firstFix` (0 = unset), the pending `response`
(initially `TimedOut`), the two persistent parse contexts and the
caller's point. -/
structure AttemptState where
  fixCount : ℕ
  firstFix : ℕ
  response : LocationResults
  qctx : QlocContext
  ectx : EpeContext
  point : LocationPoint
deriving DecidableEq, Repr

/-- Fresh per-attempt loop state (`fixCount = 0`, `firstFix = 0`,
`response = TimedOut`) over the carried-over contexts and caller point. -/
def AttemptState.start (qctx : QlocContext) (ectx : EpeContext)
    (point : LocationPoint) : AttemptState :=
  ⟨0, 0, LocationResults.TimedOut, qctx, ectx, point⟩

/-- Fixed parameters of one acquisition attempt: stored configuration,
whether the modem is a BG95-M5, the `System.millis()` value at attempt
start and `maximumFixTime * 1000`. -/
structure LoopParams where
  conf : LocationConfiguration
  isBG95 : Bool
  start : ℕ
  maxTime : ℕ
deriving DecidableEq, Repr

/-- The body of one poll cycle of `SomLocation::threadLoop` up to (but not
including) the stop test: QLOC query parsing, `fixCount` increment and
first-fix capture on a `FIX` decode, and the BG95-only accuracy query merge.
Returns the decode result and the updated loop state. -/
def cycleUpdate (p : LoopParams) (st : AttemptState) (c : PollCycle) :
    CME_Error × AttemptState :=
  let q := parseQlocResponse (stripLfCr c.locText) st.qctx st.point
  let fixCount1 := if q.ret = CME_Error.FIX then st.fixCount + 1 else st.fixCount
  let fp :=
    if q.ret = CME_Error.FIX ∧ st.firstFix = 0 then
      (c.now2, { q.point with systemTime := c.timeNow })
    else (st.firstFix, q.point)
  let ep :=
    if p.isBG95 then parseEpeResponse (stripLfCr c.epeText) st.ectx fp.2
    else (st.ectx, fp.2)
  (q.ret, ⟨fixCount1, fp.1, st.response, q.ctx, ep.1, ep.2⟩)

/-- The stop-with-`Fixed` test of `SomLocation::threadLoop` (line 481):
the decode returned `FIX`, the consecutive-fix counter equals (exactly)
`LOCATION_REQUIRED_SETTLING_COUNT`, and the point's HDOP and horizontal
accuracy are at or below the configured thresholds. -/
def fixedCond (p : LoopParams) (r : CME_Error × AttemptState) : Prop :=
  r.1 = CME_Error.FIX ∧ r.2.fixCount = LOCATION_REQUIRED_SETTLING_COUNT ∧
  r.2.point.horizontalDop.le ⟨p.conf.hdop, 1⟩ ∧
  r.2.point.horizontalAccuracy.le p.conf.hacc

instance (p : LoopParams) (r : CME_Error × AttemptState) :
    Decidable (fixedCond p r) := by
  unfold fixedCond; infer_instance

/-- The loop state at a stop-with-`Fixed` exit of the cycle. -/
def fixedState (p : LoopParams) (st : AttemptState) (c : PollCycle) : AttemptState :=
  { (cycleUpdate p st c).2 with response := LocationResults.Fixed }

/-- One iteration of the polling `while` loop of `SomLocation::threadLoop`:
exit with the loop-head power flag when the modem is off, break (power still
on) when the elapsed time reaches `maxTime`, otherwise run the cycle body
and break with `Fixed` exactly when the stop test passes.  (`System.millis`
is a monotone 64-bit counter, so `now - start` never wraps.) -/
def step (p : LoopParams) (st : AttemptState) (c : PollCycle) :
    AttemptState ⊕ (Bool × AttemptState) :=
  if c.power = false then Sum.inr (false, st)
  else if p.maxTime ≤ c.now - p.start then Sum.inr (true, st)
  else
    let r := cycleUpdate p st c
    if fixedCond p r then Sum.inr (true, fixedState p st c)
    else Sum.inl r.2

/-- Run the polling loop over a (finite prefix of the) cycle input stream;
`none` means the supplied inputs were exhausted with the loop still
running. -/
def runLoop (p : LoopParams) : AttemptState → List PollCycle → Option (Bool × AttemptState)
  | _, [] => none
  | st, c :: rest =>
    match step p st c with
    | Sum.inl st1 => runLoop p st1 rest
    | Sum.inr e => some e

/-- One full acquisition attempt after the loop: a power-loss exit without
`Fixed` becomes `Unavailable`, and when a first fix was seen the
time-to-first-fix is stored (`(firstFix - start) / 1000` seconds, uint64
subtraction). -/
def attemptRun (p : LoopParams) (st : AttemptState) (cycles : List PollCycle) :
    Option (LocationResults × AttemptState) :=
  match runLoop p st cycles with
  | none => none
  | some (power, st1) =>
    let response :=
      if power = false ∧ ¬(st1.response = LocationResults.Fixed) then
        LocationResults.Unavailable
      else st1.response
    let diff : ℤ := ((st1.firstFix + UINT64_MOD - p.start % UINT64_MOD) % UINT64_MOD : ℕ)
    let st2 :=
      if ¬(st1.firstFix = 0) then
        { st1 with point :=
          { st1.point with timeToFirstFix := Fl.divPos ⟨diff, 1⟩ 1000 } }
      else st1
    some (response, st2)

/-- An attempt exactly as `threadLoop` launches it: `maxTime` is the stored
`maximumFixTime` in milliseconds. -/
def somAttempt (conf : LocationConfiguration) (isBG95 : Bool) (start : ℕ)
    (st : AttemptState) (cycles : List PollCycle) :
    Option (LocationResults × AttemptState) :=
  attemptRun ⟨conf, isBG95, start, conf.maxFixSeconds * 1000⟩ st cycles

/-- Apply one loop `step` and keep the carried state whether the loop
continues or exits (used to inspect intermediate loop states). -/
def stepK (p : LoopParams) (st : AttemptState) (c : PollCycle) : AttemptState :=
  match step p st c with
  | Sum.inl s => s
  | Sum.inr e => e.2

/-- Reference definition following the spec's words: the calendar
conversion of the reply's UTC fields — two-digit year offset by 2000,
1-based month and day, then hour/minute/second — to an epoch timestamp. -/
def utcFieldsToEpoch (yy mo dd hh mi ss : ℕ) : ℤ :=
  daysFromCivil (2000 + (yy : ℤ)) (mo : ℤ) (dd : ℤ) * 86400 +
    (hh : ℤ) * 3600 + (mi : ℤ) * 60 + (ss : ℤ)

/-- `pat` matches at the head of the text. -/
def startsWithSeq : List Char → List Char → Bool
  | [], _ => true
  | _ :: _, [] => false
  | p :: ps, c :: cs => p = c && startsWithSeq ps cs

/-- `pat` occurs as a contiguous substring of the text ("contains the
pattern" in the spec's sense). -/
def hasSubSeq (pat : List Char) : List Char → Bool
  | [] => startsWithSeq pat []
  | c :: cs => startsWithSeq pat (c :: cs) || hasSubSeq pat cs

/-- A well-formed `AT+QGPSLOC=2` reply as delivered by the modem transport
(CR/LF still embedded): 2025-01-01 10:20:30 UTC, HDOP 1.2, fix 3,
COG 120°05', speed 0 km/h. -/
def locGoodRaw : List Char :=
  ("\r\n+QGPSLOC: 102030.000,45.00000,7.00000,1.2,300.5,3,120.05,0.0,0.0,010125,8\r\n").toList

/-- A well-formed reply identical to `locGoodRaw` except speed 36.0 km/h. -/
def locSpeed36Raw : List Char :=
  ("\r\n+QGPSLOC: 102030.000,45.00000,7.00000,1.2,300.5,3,120.05,36.0,19.4,010125,8\r\n").toList

/-- An `estimation_error` reply with horizontal accuracy 60.0 m (above the
default 50.0 m threshold). -/
def epeBadRaw : List Char :=
  ("\r\n+QGPSCFG: \"estimation_error\",60.0,10.0,0.5,0.8\r\n").toList

/-- An `estimation_error` reply with horizontal accuracy 5.0 m (below the
default threshold). -/
def epeGoodRaw : List Char :=
  ("\r\n+QGPSCFG: \"estimation_error\",5.0,10.0,0.5,0.8\r\n").toList

/-- Loop parameters of an attempt under the default configuration on a
BG95-M5, started at millisecond 0 (`maxTime = 90 * 1000`). -/
def cxP : LoopParams := ⟨LocationConfiguration.default, true, 0, 90000⟩

/-- Fresh attempt state over zeroed contexts and a zeroed caller point. -/
def cxInit : AttemptState :=
  AttemptState.start QlocContext.init EpeContext.init LocationPoint.init

/-- Cycle 1: good fix decode, accuracy 60 m (fails the threshold). -/
def cxC1 : PollCycle := ⟨true, 0, locGoodRaw, epeBadRaw, 10, 100⟩

/-- Cycle 2: good fix decode, accuracy still 60 m — `fixCount` reaches 2
here but the accuracy threshold fails. -/
def cxC2 : PollCycle := ⟨true, 1000, locGoodRaw, epeBadRaw, 10, 100⟩

/-- Cycle 3: good fix decode, accuracy now 5 m — both thresholds hold but
`fixCount` is already 3. -/
def cxC3 : PollCycle := ⟨true, 2000, locGoodRaw, epeGoodRaw, 10, 100⟩

/-- Cycle 4: the 90 s budget has elapsed. -/
def cxC4 : PollCycle := ⟨true, 90000, locGoodRaw, epeGoodRaw, 10, 100⟩

/-- Loop state after cycles 1-3 of the counterexample run. -/
def cxS3 : AttemptState := stepK cxP (stepK cxP (stepK cxP cxInit cxC1) cxC2) cxC3

/-- A mid-attempt state whose fix counter has already passed the settling
count (used to instantiate the overshoot theorem). -/
def wOvershootState : AttemptState :=
  ⟨3, 0, LocationResults.TimedOut, QlocContext.init, EpeContext.init, LocationPoint.init⟩

/-- A cycle that reports modem power loss. -/
def wPowerLossCycle : PollCycle := ⟨false, 0, locGoodRaw, epeGoodRaw, 10, 100⟩

/-- A mid-attempt state with one fix already counted (used to instantiate
the Fixed-stop characterisation at a cycle that fixes). -/
def wOneFixState : AttemptState :=
  ⟨1, 10, LocationResults.TimedOut, QlocContext.init, EpeContext.init, LocationPoint.init⟩

/-- Cycle that produces the second consecutive fix with good accuracy. -/
def wGoodCycle : PollCycle := ⟨true, 1000, locGoodRaw, epeGoodRaw, 10, 100⟩

/-- A context left over from an earlier successful parse (stale longitude
and month), as `_qlocContext` persists across calls. -/
def cxStaleCtx : QlocContext :=
  { QlocContext.init with longitude := ⟨99, 1⟩, tm_month := 6 }

/-- A truncated position reply matching only a prefix (4 of 16 fields) of
the expected format. -/
def cxPrefixReply : List Char := (" +QGPSLOC: 102030.000,12.5").toList

/-- Helper: `Fl.equiv` is reflexive. -/
theorem Fl.equiv_refl (a : Fl) : Fl.equiv a a := rfl

/-- C2 (code_bug): `begin` stores the caller's configuration through
`LocationConfiguration::operator=`, which omits `_hacc`; a caller-set
accuracy threshold of 10.0 m is dropped and the stored configuration keeps
the default 50.0 m, contradicting both the spec and the class's own
configuration surface. -/
theorem begin_drops_configured_hacc :
    (SomLocation.beginConf LocationConfiguration.default
        (LocationConfiguration.default.haccThresholdSet ⟨10, 1⟩)).1.hacc = LocationHaccDefault ∧
    (LocationConfiguration.default.haccThresholdSet ⟨10, 1⟩).hacc = ⟨10, 1⟩ ∧
    ¬ Fl.equiv LocationHaccDefault ⟨10, 1⟩ := by
  exact ⟨rfl, rfl, by decide⟩

/-- C7 (code_bug): on a reply carrying 36.0 km/h the source stores
`36.0 * 1000.0 = 36000.0` into `point.speed` (documented as metres per
second), whereas the km/h-to-m/s conversion `36 * 1000/3600` is `10`. -/
theorem speed_conversion_bug :
    (parseQloc (stripLfCr locSpeed36Raw) QlocContext.init LocationPoint.init).ret = 0 ∧
    Fl.equiv (sscanfQloc (stripLfCr locSpeed36Raw) QlocContext.init).2.speedKmph ⟨36, 1⟩ ∧
    Fl.equiv (parseQloc (stripLfCr locSpeed36Raw) QlocContext.init
        LocationPoint.init).point.speed ⟨36000, 1⟩ ∧
    ¬ Fl.equiv (parseQloc (stripLfCr locSpeed36Raw) QlocContext.init
        LocationPoint.init).point.speed (Fl.mul ⟨36, 1⟩ ⟨1000, 3600⟩) ∧
    Fl.equiv (Fl.mul ⟨36, 1⟩ ⟨1000, 3600⟩) ⟨10, 1⟩ := by decide

/-- C1 (counterexample): a run in which the settling count is passed while
the accuracy threshold still fails.  At cycle 3 the counter is 3 (≥ 2) and
both thresholds hold, yet the loop continues and the attempt ends
`TimedOut` — so "fixCount ≥ 2 ∧ thresholds met terminates with Fixed" is
false of the code. -/
theorem settling_equality_misses_late_fix :
    cxS3.fixCount = 3 ∧ 2 ≤ cxS3.fixCount ∧
    Fl.le cxS3.point.horizontalDop ⟨LocationConfiguration.default.hdop, 1⟩ ∧
    Fl.le cxS3.point.horizontalAccuracy LocationConfiguration.default.hacc ∧
    (step cxP (stepK cxP (stepK cxP cxInit cxC1) cxC2) cxC3).isLeft = true ∧
    (attemptRun cxP cxInit [cxC1, cxC2, cxC3, cxC4]).map (fun r => r.1) =
      some LocationResults.TimedOut := by decide

/-- C3 (counterexample): on a reply with neither a `+CME ERROR` pattern nor
a parsable fix sample, `parseQlocResponse` still returns `FIX` although
`parseQloc` failed — "returns Fix only when the sample parse succeeded" is
false of the code. -/
theorem fix_returned_despite_failed_sample :
    (parseQlocResponse ("garbage".toList) QlocContext.init LocationPoint.init).ret
      = CME_Error.FIX ∧
    (parseQloc ("garbage".toList) QlocContext.init LocationPoint.init).ret = -1 := by decide

/-- C4 (counterexample): a reply matching only 4 of the 16 expected fields
is not rejected: `parseQloc` returns success and populates the point with a
mixture of freshly parsed latitude and stale context longitude. -/
theorem prefix_reply_partially_populates :
    (sscanfQloc cxPrefixReply cxStaleCtx).1 = 4 ∧
    (parseQloc cxPrefixReply cxStaleCtx LocationPoint.init).ret = 0 ∧
    Fl.equiv (parseQloc cxPrefixReply cxStaleCtx LocationPoint.init).point.latitude ⟨125, 10⟩ ∧
    Fl.equiv (parseQloc cxPrefixReply cxStaleCtx LocationPoint.init).point.longitude ⟨99, 1⟩ ∧
    ¬ (parseQloc cxPrefixReply cxStaleCtx LocationPoint.init).point = LocationPoint.init := by
  decide

/-- C5 (counterexample): `sscanf` anchors at the start of the reply, so a
text that merely contains `+CME ERROR: 516` yields `NONE`, and the empty
reply (no pattern at all) yields `UNDEFINED` rather than `NONE` — both
"exactly when" clauses of the claim fail on the code. -/
theorem cme_pattern_not_substring :
    hasSubSeq ("+CME ERROR: 516".toList) ("x+CME ERROR: 516".toList) = true ∧
    parseCmeError ("x+CME ERROR: 516".toList) = CME_Error.NONE ∧
    parseCmeError ("".toList) = CME_Error.UNDEFINED := by decide

/-- C8 (counterexample): with an attempt outstanding (`_acquiring` set) but
the modem off, a further blocking call returns `Unavailable`, not
`Pending` — the modem-power precondition is checked before the
single-flight check. -/
theorem pending_claim_fails_when_modem_off :
    (getLocationBlocking LocationConfiguration.default false 0 ModemType.BG95_M5 true
        none).result = LocationResults.Unavailable ∧
    ¬ (getLocationBlocking LocationConfiguration.default false 0 ModemType.BG95_M5 true
        none).result = LocationResults.Pending := by decide

/-- C3 (corrected): branch behaviour of `parseQlocResponse` — `NO_FIX`
clears the fix field and propagates; any other non-`NONE` fault yields
`NONE` with the point untouched; and when the fault is `NONE` the function
returns `FIX` unconditionally, whether or not the sample parse
succeeded. -/
theorem parseQlocResponse_branches (buf : List Char) (ctx : QlocContext)
    (pt : LocationPoint) :
    (parseCmeError buf = CME_Error.NO_FIX →
      parseQlocResponse buf ctx pt = ⟨CME_Error.NO_FIX, ctx, { pt with fix := 0 }⟩) ∧
    (¬ parseCmeError buf = CME_Error.NO_FIX → ¬ parseCmeError buf = CME_Error.NONE →
      parseQlocResponse buf ctx pt = ⟨CME_Error.NONE, ctx, pt⟩) ∧
    (parseCmeError buf = CME_Error.NONE →
      (parseQlocResponse buf ctx pt).ret = CME_Error.FIX) := by
  unfold parseQlocResponse
  refine ⟨fun h => by simp [h], fun h1 h2 => by simp [h1, h2], fun h => by simp [h]⟩

/-- Witness for the `NO_FIX` branch of `parseQlocResponse_branches`. -/
theorem parseQlocResponse_branches_witness :
    parseQlocResponse ("+CME ERROR: 516".toList) QlocContext.init LocationPoint.init
      = ⟨CME_Error.NO_FIX, QlocContext.init, { LocationPoint.init with fix := 0 }⟩ :=
  (parseQlocResponse_branches ("+CME ERROR: 516".toList) QlocContext.init
    LocationPoint.init).1 (by decide)

/-- C4 (corrected): `parseQloc` reports failure exactly when the scan
completed zero fields (scanf result `0`), and only on that failure path is
the caller's point left untouched; a reply matching a nonzero prefix of
fields is treated as success. -/
theorem parseQloc_fails_iff_no_field (buf : List Char) (ctx : QlocContext)
    (pt : LocationPoint) :
    ((parseQloc buf ctx pt).ret = -1 ↔ (sscanfQloc buf ctx).1 = 0) ∧
    ((sscanfQloc buf ctx).1 = 0 → (parseQloc buf ctx pt).point = pt) := by
  unfold parseQloc
  by_cases h : (sscanfQloc buf ctx).1 = 0
  · simp [h]
  · simp [h]

/-- Witness for `parseQloc_fails_iff_no_field` at a no-field reply. -/
theorem parseQloc_fails_iff_no_field_witness :
    (parseQloc ("garbage".toList) cxStaleCtx LocationPoint.init).point
      = LocationPoint.init :=
  (parseQloc_fails_iff_no_field ("garbage".toList) cxStaleCtx LocationPoint.init).2
    (by decide)

/-- C8 (corrected): while `_acquiring` is set, neither entry point ever
enqueues a command (so no second Worker cycle can start), and both return
`Pending` provided the modem-on and model-detection preconditions pass;
with the modem off the precondition check wins and `Unavailable` (or
`Unsupported`) is returned instead. -/
theorem single_flight_rejects (conf : LocationConfiguration) (modemOn : Bool)
    (celldev : ℕ) (mt : ModemType) (delivered : Option LocationResults) :
    (getLocationBlocking conf modemOn celldev mt true delivered).enqueued = false ∧
    (getLocationAsync conf modemOn celldev mt true).enqueued = false ∧
    (modemOn = true →
      (mt = ModemType.Unavailable → (detectModemType modemOn celldev mt).1 = true) →
      (getLocationBlocking conf modemOn celldev mt true delivered).result
        = LocationResults.Pending ∧
      (getLocationAsync conf modemOn celldev mt true).result
        = LocationResults.Pending) := by
  unfold getLocationBlocking getLocationAsync
  cases modemOn with
  | false => simp
  | true =>
    by_cases hd : mt = ModemType.Unavailable
    · subst hd
      by_cases hdet : (detectModemType true celldev ModemType.Unavailable).1 = true
      · simp [hdet]
      · have hdet0 : (detectModemType true celldev ModemType.Unavailable).1 = false := by
          revert hdet; cases (detectModemType true celldev ModemType.Unavailable).1 <;> simp
        simp [hdet0]
    · simp [hd]

/-- Witness for `single_flight_rejects` with the modem on and a detected
BG95-M5. -/
theorem single_flight_rejects_witness :
    (getLocationBlocking LocationConfiguration.default true 0 ModemType.BG95_M5 true
        none).result = LocationResults.Pending ∧
    (getLocationAsync LocationConfiguration.default true 0
        ModemType.BG95_M5 true).result = LocationResults.Pending :=
  (single_flight_rejects LocationConfiguration.default true 0 ModemType.BG95_M5
    none).2.2 rfl (by decide)

/-- C10 (confirmed): whenever the blocking entry dispatches a request, the
wait bound it passes to the response handoff is
`maximumFixTime * 1000 + LOCATION_PERIOD_ACQUIRE_MS` (as a 32-bit tick
count, hence never more than that sum), and expiry of that wait with no
delivered response makes the call return `Idle`. -/
theorem blocking_wait_bound (conf : LocationConfiguration) (modemOn : Bool)
    (celldev : ℕ) (mt : ModemType) (acquiring : Bool)
    (h : (getLocationBlocking conf modemOn celldev mt acquiring none).enqueued = true) :
    (getLocationBlocking conf modemOn celldev mt acquiring none).timeoutUsed =
      some ((conf.maxFixSeconds * 1000 + LOCATION_PERIOD_ACQUIRE_MS) % UINT32_MOD) ∧
    (conf.maxFixSeconds * 1000 + LOCATION_PERIOD_ACQUIRE_MS) % UINT32_MOD ≤
      conf.maxFixSeconds * 1000 + LOCATION_PERIOD_ACQUIRE_MS ∧
    (getLocationBlocking conf modemOn celldev mt acquiring none).result
      = LocationResults.Idle := by
  unfold getLocationBlocking at h ⊢
  cases modemOn with
  | false => simp at h
  | true =>
    by_cases hd : mt = ModemType.Unavailable
    · subst hd
      by_cases hdet : (detectModemType true celldev ModemType.Unavailable).1 = false
      · simp [hdet] at h
      · cases acquiring with
        | true => simp [hdet] at h
        | false =>
          simp only [hdet, if_false, if_neg, Bool.false_eq_true, reduceIte] at h ⊢
          exact ⟨rfl, Nat.mod_le _ _, rfl⟩
    · cases acquiring with
      | true => simp [hd] at h
      | false =>
        simp only [hd, if_false, if_neg, Bool.false_eq_true, reduceIte] at h ⊢
        exact ⟨rfl, Nat.mod_le _ _, rfl⟩

/-- Witness for `blocking_wait_bound` at a dispatching call. -/
theorem blocking_wait_bound_witness :
    (getLocationBlocking LocationConfiguration.default true 0 ModemType.BG95_M5 false
        none).timeoutUsed = some ((LocationConfiguration.default.maxFixSeconds * 1000 +
          LOCATION_PERIOD_ACQUIRE_MS) % UINT32_MOD) ∧
    (LocationConfiguration.default.maxFixSeconds * 1000 + LOCATION_PERIOD_ACQUIRE_MS)
        % UINT32_MOD ≤
      LocationConfiguration.default.maxFixSeconds * 1000 + LOCATION_PERIOD_ACQUIRE_MS ∧
    (getLocationBlocking LocationConfiguration.default true 0 ModemType.BG95_M5 false
        none).result = LocationResults.Idle :=
  blocking_wait_bound LocationConfiguration.default true 0 ModemType.BG95_M5 false
    (by decide)

/-- Helper: when the CME scan does not complete its single conversion, the
scanned code keeps its C initialisation `0`. -/
theorem sscanfCme_snd (l : List Char) (h : ¬ (sscanfCme l).1 = 1) :
    (sscanfCme l).2 = 0 := by
  unfold sscanfCme at h ⊢
  generalize hA : scanLit ("+CME".toList) (skipWs l) = a at h ⊢
  cases a with
  | error e => rfl
  | ok s1 =>
    dsimp only at h ⊢
    generalize hB : scanLit ("ERROR:".toList) (skipWs s1) = b at h ⊢
    cases b with
    | error e => rfl
    | ok s2 =>
      dsimp only at h ⊢
      generalize hC : scanUInt none (skipWs s2) = d at h ⊢
      cases d with
      | error e => rfl
      | ok p =>
        obtain ⟨v, r⟩ := p
        simp at h

/-- C5 (corrected): full characterisation of `parseCmeError` over all reply
texts: `NO_FIX` exactly when the anchored scan completes with code 516;
`NONE` exactly when the scan ends in a pattern mismatch (scanf result 0);
each of the five other known codes maps to its distinct named fault; any
other completed code — and a reply where end of input cuts the pattern
short (scanf result -1, code left 0) — maps to `UNDEFINED`. -/
theorem parseCmeError_characterisation (l : List Char) :
    (parseCmeError l = CME_Error.NO_FIX ↔ sscanfCme l = (1, 516)) ∧
    (parseCmeError l = CME_Error.NONE ↔ (sscanfCme l).1 = 0) ∧
    (sscanfCme l = (1, 504) → parseCmeError l = CME_Error.SESSION_IS_ONGOING) ∧
    (sscanfCme l = (1, 505) → parseCmeError l = CME_Error.SESSION_NOT_ACTIVE) ∧
    (sscanfCme l = (1, 506) → parseCmeError l = CME_Error.OPERATION_TIMEOUT) ∧
    (sscanfCme l = (1, 522) → parseCmeError l = CME_Error.GNSS_IS_WORKING) ∧
    (sscanfCme l = (1, 549) → parseCmeError l = CME_Error.UNKNOWN_ERROR) ∧
    ((sscanfCme l).1 = -1 → parseCmeError l = CME_Error.UNDEFINED) ∧
    (∀ n, sscanfCme l = (1, n) → ¬ n = 504 → ¬ n = 505 → ¬ n = 506 → ¬ n = 516 →
      ¬ n = 522 → ¬ n = 549 → parseCmeError l = CME_Error.UNDEFINED) ∧
    [CME_Error.SESSION_IS_ONGOING, CME_Error.SESSION_NOT_ACTIVE,
      CME_Error.OPERATION_TIMEOUT, CME_Error.NO_FIX, CME_Error.GNSS_IS_WORKING,
      CME_Error.UNKNOWN_ERROR].Nodup := by
  have hsw516 : ∀ n, cmeSwitch n = CME_Error.NO_FIX ↔ n = 516 := by
    intro n; unfold cmeSwitch; split <;> simp_all
  have hswNONE : ∀ n, ¬ cmeSwitch n = CME_Error.NONE := by
    intro n; unfold cmeSwitch; split <;> simp
  refine ⟨?_, ?_, ?_, ?_, ?_, ?_, ?_, ?_, ?_, by decide⟩
  · unfold parseCmeError
    by_cases h0 : (sscanfCme l).1 = 0
    · simp only [h0, if_pos]
      constructor
      · intro he; exact absurd he (by decide)
      · intro he; rw [he] at h0; exact absurd h0 (by decide)
    · simp only [h0, if_neg, hsw516, ite_false]
      constructor
      · intro h2
        by_cases h1 : (sscanfCme l).1 = 1
        · exact Prod.ext_iff.mpr ⟨h1, h2⟩
        · have := sscanfCme_snd l h1
          rw [h2] at this; exact absurd this (by decide)
      · intro he; rw [he]
  · unfold parseCmeError
    by_cases h0 : (sscanfCme l).1 = 0
    · simp [h0]
    · simp [h0, hswNONE]
  · intro he
    have h7 : parseCmeError l = cmeSwitch 504 := by simp [parseCmeError, he]
    rw [h7]; rfl
  · intro he
    have h7 : parseCmeError l = cmeSwitch 505 := by simp [parseCmeError, he]
    rw [h7]; rfl
  · intro he
    have h7 : parseCmeError l = cmeSwitch 506 := by simp [parseCmeError, he]
    rw [h7]; rfl
  · intro he
    have h7 : parseCmeError l = cmeSwitch 522 := by simp [parseCmeError, he]
    rw [h7]; rfl
  · intro he
    have h7 : parseCmeError l = cmeSwitch 549 := by simp [parseCmeError, he]
    rw [h7]; rfl
  · intro he
    have h1 : ¬ (sscanfCme l).1 = 1 := by rw [he]; decide
    have h2 := sscanfCme_snd l h1
    have h0 : ¬ (sscanfCme l).1 = 0 := by rw [he]; decide
    have h7 : parseCmeError l = cmeSwitch (sscanfCme l).2 := by
      simp [parseCmeError, h0]
    rw [h7, h2]; rfl
  · intro n he hn1 hn2 hn3 hn4 hn5 hn6
    have hn : cmeSwitch n = CME_Error.UNDEFINED := by
      unfold cmeSwitch; split <;> simp_all
    have h7 : parseCmeError l = cmeSwitch n := by simp [parseCmeError, he]
    rw [h7, hn]

/-- Witness for `parseCmeError_characterisation`: code 504 on a concrete
reply maps to `SESSION_IS_ONGOING`. -/
theorem parseCmeError_characterisation_witness :
    parseCmeError ("+CME ERROR: 504".toList) = CME_Error.SESSION_IS_ONGOING :=
  (parseCmeError_characterisation ("+CME ERROR: 504".toList)).2.2.1 (by decide)

/-- Helper: the fix counter after the cycle body is an increment exactly on
a `FIX` decode. -/
theorem cycleUpdate_fixCount (p : LoopParams) (st : AttemptState) (c : PollCycle) :
    (cycleUpdate p st c).2.fixCount =
      if (parseQlocResponse (stripLfCr c.locText) st.qctx st.point).ret = CME_Error.FIX
      then st.fixCount + 1 else st.fixCount := rfl

/-- Helper: the cycle body never changes the pending response. -/
theorem cycleUpdate_response (p : LoopParams) (st : AttemptState) (c : PollCycle) :
    (cycleUpdate p st c).2.response = st.response := rfl

/-- Helper: the fix counter never decreases across a cycle body. -/
theorem cycleUpdate_fixCount_le (p : LoopParams) (st : AttemptState) (c : PollCycle) :
    st.fixCount ≤ (cycleUpdate p st c).2.fixCount := by
  rw [cycleUpdate_fixCount]; split <;> omega

/-- Helper: the four possible outcomes of one loop iteration, each with the
branch conditions that produce it. -/
theorem step_cases (p : LoopParams) (st : AttemptState) (c : PollCycle) :
    (step p st c = Sum.inl (cycleUpdate p st c).2 ∧ ¬ fixedCond p (cycleUpdate p st c)) ∨
    (step p st c = Sum.inr (false, st) ∧ c.power = false) ∨
    (step p st c = Sum.inr (true, st) ∧ ¬ c.power = false ∧
      p.maxTime ≤ c.now - p.start) ∨
    (step p st c = Sum.inr (true, fixedState p st c) ∧ ¬ c.power = false ∧
      ¬ p.maxTime ≤ c.now - p.start ∧ fixedCond p (cycleUpdate p st c)) := by
  unfold step
  by_cases h1 : c.power = false
  · right; left; exact ⟨by simp [h1], h1⟩
  · by_cases h2 : p.maxTime ≤ c.now - p.start
    · right; right; left; exact ⟨by simp [h1, h2], h1, h2⟩
    · by_cases h3 : fixedCond p (cycleUpdate p st c)
      · right; right; right; exact ⟨by simp [h1, h2, h3], h1, h2, h3⟩
      · left; exact ⟨by simp [h1, h2, h3], h3⟩

/-- Helper: from a state beyond the settling count with the pending
response still `TimedOut`, the loop can only exit with response
`TimedOut`. -/
theorem runLoop_overshoot (p : LoopParams) :
    ∀ (cycles : List PollCycle) (st : AttemptState) (pw : Bool) (st1 : AttemptState),
      3 ≤ st.fixCount → st.response = LocationResults.TimedOut →
      runLoop p st cycles = some (pw, st1) →
      st1.response = LocationResults.TimedOut := by
  intro cycles
  induction cycles with
  | nil => intro st pw st1 _ _ hrun; simp [runLoop] at hrun
  | cons c rest ih =>
    intro st pw st1 h3 hr hrun
    unfold runLoop at hrun
    rcases step_cases p st c with ⟨h, _⟩ | ⟨h, _⟩ | ⟨h, _⟩ | ⟨h, _, _, hc⟩
    · rw [h] at hrun
      dsimp only at hrun
      exact ih (cycleUpdate p st c).2 pw st1
        (le_trans h3 (cycleUpdate_fixCount_le p st c))
        (by rw [cycleUpdate_response]; exact hr) hrun
    · rw [h] at hrun
      dsimp only at hrun
      obtain ⟨_, h2⟩ := Prod.mk.injEq .. ▸ Option.some.inj hrun
      rw [← h2]; exact hr
    · rw [h] at hrun
      dsimp only at hrun
      obtain ⟨_, h2⟩ := Prod.mk.injEq .. ▸ Option.some.inj hrun
      rw [← h2]; exact hr
    · have h2 : (cycleUpdate p st c).2.fixCount = 2 := hc.2.1
      have h1 := cycleUpdate_fixCount_le p st c
      omega

/-- C6 (confirmed): once the consecutive-fix counter has been incremented
strictly past the settling count of 2 without the Fixed stop firing, the
attempt can never thereafter terminate with `Fixed`: every terminating run
from such a mid-attempt state ends `TimedOut` or `Unavailable`. -/
theorem overshoot_never_fixed (p : LoopParams) (st : AttemptState)
    (cycles : List PollCycle) (out : LocationResults × AttemptState)
    (h3 : 3 ≤ st.fixCount) (hr : st.response = LocationResults.TimedOut)
    (hrun : attemptRun p st cycles = some out) :
    out.1 = LocationResults.TimedOut ∨ out.1 = LocationResults.Unavailable := by
  unfold attemptRun at hrun
  cases hl : runLoop p st cycles with
  | none => rw [hl] at hrun; exact absurd hrun (by simp)
  | some e =>
    rw [hl] at hrun
    obtain ⟨pw, st1⟩ := e
    have hresp := runLoop_overshoot p cycles st pw st1 h3 hr hl
    dsimp only at hrun
    rw [← Option.some.inj hrun]
    by_cases hpw : pw = false
    · simp [hpw, hresp]
    · simp [hpw, hresp]

/-- Witness for `overshoot_never_fixed`: power loss from an overshot state
ends the attempt `Unavailable`. -/
theorem overshoot_never_fixed_witness :
    LocationResults.Unavailable = LocationResults.TimedOut ∨
    LocationResults.Unavailable = LocationResults.Unavailable :=
  overshoot_never_fixed ⟨LocationConfiguration.default, true, 0, 90000⟩
    wOvershootState [wPowerLossCycle] (LocationResults.Unavailable, wOvershootState)
    (by decide) rfl (by decide)

/-- C1 (corrected): the loop stops with `Fixed` in a cycle exactly when the
cycle decoded `FIX`, the incremented counter equals (an equality test, not
`≥`) the settling count 2, and both thresholds hold on the point as updated
in that cycle — and any `Fixed` exit carries that equality. -/
theorem fixed_stop_characterisation (p : LoopParams) (st : AttemptState)
    (c : PollCycle) (hresp : st.response = LocationResults.TimedOut) :
    (step p st c = Sum.inr (true, fixedState p st c)
      ↔ c.power = true ∧ c.now - p.start < p.maxTime ∧
        fixedCond p (cycleUpdate p st c)) ∧
    (∀ pw st1, step p st c = Sum.inr (pw, st1) →
      st1.response = LocationResults.Fixed →
      st1.fixCount = LOCATION_REQUIRED_SETTLING_COUNT ∧
        fixedCond p (cycleUpdate p st c)) := by
  have hfsr : (fixedState p st c).response = LocationResults.Fixed := rfl
  have hne : ¬ st = fixedState p st c := by
    intro he
    have h1 : st.response = LocationResults.Fixed := by rw [he]; exact hfsr
    rw [hresp] at h1; exact absurd h1 (by decide)
  constructor
  · constructor
    · intro hstep
      rcases step_cases p st c with ⟨h, _⟩ | ⟨h, _⟩ | ⟨h, _, _⟩ | ⟨h, h1, h2, h4⟩
      · rw [h] at hstep; exact absurd hstep (by simp)
      · rw [h] at hstep
        simp only [Sum.inr.injEq, Prod.mk.injEq] at hstep
        exact absurd hstep.1 (by decide)
      · rw [h] at hstep
        simp only [Sum.inr.injEq, Prod.mk.injEq, true_and] at hstep
        exact absurd hstep hne
      · refine ⟨?_, by omega, h4⟩
        revert h1; cases c.power <;> simp
    · rintro ⟨hp, hlt, hfc⟩
      have h1 : ¬ c.power = false := by rw [hp]; decide
      have h2 : ¬ p.maxTime ≤ c.now - p.start := by omega
      unfold step
      simp [h1, h2, hfc]
  · intro pw st1 hs hf
    rcases step_cases p st c with ⟨h, _⟩ | ⟨h, _⟩ | ⟨h, _, _⟩ | ⟨h, h1, h2, h4⟩
    · rw [h] at hs; exact absurd hs (by simp)
    · rw [h] at hs
      simp only [Sum.inr.injEq, Prod.mk.injEq] at hs
      rw [← hs.2] at hf
      rw [hresp] at hf; exact absurd hf (by decide)
    · rw [h] at hs
      simp only [Sum.inr.injEq, Prod.mk.injEq] at hs
      rw [← hs.2] at hf
      rw [hresp] at hf; exact absurd hf (by decide)
    · rw [h] at hs
      simp only [Sum.inr.injEq, Prod.mk.injEq] at hs
      have hfx : st1.fixCount = (cycleUpdate p st c).2.fixCount := by
        rw [← hs.2]; rfl
      exact ⟨by rw [hfx]; exact h4.2.1, h4⟩

/-- Witness for `fixed_stop_characterisation`: a cycle producing the second
consecutive good fix stops the loop with `Fixed`. -/
theorem fixed_stop_characterisation_witness :
    step cxP wOneFixState wGoodCycle
      = Sum.inr (true, fixedState cxP wOneFixState wGoodCycle) :=
  (fixed_stop_characterisation cxP wOneFixState wGoodCycle rfl).1.mpr (by decide)

/-- Helper: `toInt32` is the identity below `2^31`. -/
theorem toInt32_of_lt (x : ℕ) (hx : x < 2 ^ 31) : toInt32 x = (x : ℤ) := by
  have h32 : x < 2 ^ 32 := lt_trans hx (by norm_num)
  unfold toInt32 UINT32_MOD
  rw [Nat.mod_eq_of_lt h32, if_pos hx]

/-- Helper: flooring division/remainder of a month index below 12. -/
theorem fdiv_fmod_twelve (k : ℕ) (hk : k < 12) :
    Int.fdiv (k : ℤ) 12 = 0 ∧ Int.fmod (k : ℤ) 12 = (k : ℤ) := by
  interval_cases k <;> exact ⟨by decide, by decide⟩

/-- Helper: the `tm`-struct assignments of `parseQloc` (with their C
unsigned wraparound and `int` conversion) feed `mktime` the same instant as
the direct calendar conversion of the scanned two-digit fields. -/
theorem mktime_fields_eq (y mo d h mi s : ℕ) (hmo1 : 1 ≤ mo) (hmo2 : mo ≤ 12)
    (hy : y ≤ 99) (hd : d ≤ 99) (hh : h ≤ 99) (hmi : mi ≤ 99) (hs : s ≤ 99) :
    mktimeUTC (toInt32 ((y + 2000 - 1900) % UINT32_MOD))
      (toInt32 ((mo + UINT32_MOD - 1) % UINT32_MOD)) (toInt32 (d % UINT32_MOD))
      (toInt32 (h % UINT32_MOD)) (toInt32 (mi % UINT32_MOD))
      (toInt32 (s % UINT32_MOD)) = utcFieldsToEpoch y mo d h mi s := by
  have epow : UINT32_MOD = 4294967296 := by unfold UINT32_MOD; norm_num
  have e1 : (y + 2000 - 1900) % UINT32_MOD = y + 100 := by rw [epow]; omega
  have e2 : (mo + UINT32_MOD - 1) % UINT32_MOD = mo - 1 := by rw [epow]; omega
  have e3 : d % UINT32_MOD = d := by rw [epow]; omega
  have e4 : h % UINT32_MOD = h := by rw [epow]; omega
  have e5 : mi % UINT32_MOD = mi := by rw [epow]; omega
  have e6 : s % UINT32_MOD = s := by rw [epow]; omega
  have hpw : (2 : ℕ) ^ 31 = 2147483648 := by norm_num
  rw [e1, e2, e3, e4, e5, e6]
  rw [toInt32_of_lt (y + 100) (by rw [hpw]; omega), toInt32_of_lt (mo - 1) (by rw [hpw]; omega),
      toInt32_of_lt d (by rw [hpw]; omega), toInt32_of_lt h (by rw [hpw]; omega),
      toInt32_of_lt mi (by rw [hpw]; omega), toInt32_of_lt s (by rw [hpw]; omega)]
  obtain ⟨hfd, hfm⟩ := fdiv_fmod_twelve (mo - 1) (by omega)
  unfold mktimeUTC utcFieldsToEpoch
  rw [hfd, hfm]
  have hyy : ((y + 100 : ℕ) : ℤ) + 1900 + 0 = 2000 + (y : ℤ) := by push_cast; ring
  have hmm2 : ((mo - 1 : ℕ) : ℤ) + 1 = (mo : ℤ) := by
    rw [Nat.cast_sub hmo1]; ring
  rw [hyy, hmm2]

/-- C9 (confirmed): for every well-formed position reply (full 16-field
scan, month in 1..12, two-digit numeric fields), the parsed point's epoch
time equals the calendar conversion of the embedded UTC fields (two-digit
year offset by 2000, 1-based month converted to 0-based before the calendar
math), and its heading equals `cogDegrees + cogMinutes/60` (for all
`cogMinutes` in [0,60)). -/
theorem epoch_and_heading_correct (buf : List Char) (ctx : QlocContext)
    (pt : LocationPoint) (nctx : QlocContext)
    (hscan : sscanfQloc buf ctx = (16, nctx))
    (hmo1 : 1 ≤ nctx.tm_month) (hmo2 : nctx.tm_month ≤ 12)
    (hy : nctx.tm_year ≤ 99) (hd : nctx.tm_day ≤ 99) (hh : nctx.tm_hour ≤ 99)
    (hmi : nctx.tm_min ≤ 99) (hs : nctx.tm_sec ≤ 99)
    (_hcog : nctx.cogMinutes < 60) :
    (parseQloc buf ctx pt).point.epochTime =
      utcFieldsToEpoch nctx.tm_year nctx.tm_month nctx.tm_day nctx.tm_hour
        nctx.tm_min nctx.tm_sec ∧
    Fl.equiv (parseQloc buf ctx pt).point.heading
      ((Fl.ofNat nctx.cogDegrees).add ((Fl.ofNat nctx.cogMinutes).divPos 60)) := by
  simp only [parseQloc, hscan]
  norm_num
  exact ⟨mktime_fields_eq nctx.tm_year nctx.tm_month nctx.tm_day nctx.tm_hour
    nctx.tm_min nctx.tm_sec hmo1 hmo2 hy hd hh hmi hs,
    Fl.equiv_refl _⟩

/-- Witness for `epoch_and_heading_correct` at a concrete well-formed
reply (2025-01-01 10:20:30 UTC, COG 120°05'). -/
theorem epoch_and_heading_correct_witness :
    (parseQloc (stripLfCr locGoodRaw) QlocContext.init
        LocationPoint.init).point.epochTime =
      utcFieldsToEpoch
        (sscanfQloc (stripLfCr locGoodRaw) QlocContext.init).2.tm_year
        (sscanfQloc (stripLfCr locGoodRaw) QlocContext.init).2.tm_month
        (sscanfQloc (stripLfCr locGoodRaw) QlocContext.init).2.tm_day
        (sscanfQloc (stripLfCr locGoodRaw) QlocContext.init).2.tm_hour
        (sscanfQloc (stripLfCr locGoodRaw) QlocContext.init).2.tm_min
        (sscanfQloc (stripLfCr locGoodRaw) QlocContext.init).2.tm_sec ∧
    Fl.equiv (parseQloc (stripLfCr locGoodRaw) QlocContext.init
        LocationPoint.init).point.heading
      ((Fl.ofNat (sscanfQloc (stripLfCr locGoodRaw) QlocContext.init).2.cogDegrees).add
        ((Fl.ofNat (sscanfQloc (stripLfCr locGoodRaw)
          QlocContext.init).2.cogMinutes).divPos 60)) :=
  epoch_and_heading_correct (stripLfCr locGoodRaw) QlocContext.init LocationPoint.init
    (sscanfQloc (stripLfCr locGoodRaw) QlocContext.init).2 (by decide) (by decide)
    (by decide) (by decide) (by decide) (by decide) (by decide) (by decide) (by decide)
